import Mathlib

/-!
Shallow embedding of
`src/vs/workbench/contrib/terminalContrib/accessibility/browser/terminal.accessibility.contribution.ts`.

The file is contribution wiring: it registers an `AccessibleBufferContribution`
(lazily constructing an `AccessibleBufferWidget` and delegating to it), a
`TerminalAccessibilityHelpContribution`, and four terminal actions with
keybindings. We model the observable behaviour of each handler as the list of
host-service / widget calls it performs (an event trace), context-key
expressions as boolean functions over a context state, and key chords as the
VS Code bit-mask encoding from `vs/base/common/keyCodes`.
-/

namespace TerminalAccessibility

/-- KeyMod.CtrlCmd from vs/base/common/keyCodes: 1 shifted left 11. -/
def KeyMod.CtrlCmd : Nat := 2048

/-- KeyMod.Shift from vs/base/common/keyCodes: 1 shifted left 10. -/
def KeyMod.Shift : Nat := 1024

/-- KeyCode.Tab from the VS Code KeyCode enum. -/
def KeyCode.Tab : Nat := 2

/-- KeyCode.UpArrow from the VS Code KeyCode enum. -/
def KeyCode.UpArrow : Nat := 16

/-- KeyCode.DownArrow from the VS Code KeyCode enum. -/
def KeyCode.DownArrow : Nat := 18

/-- KeyCode.KeyO from the VS Code KeyCode enum. -/
def KeyCode.KeyO : Nat := 45

/-- KeybindingWeight.WorkbenchContrib. -/
def KeybindingWeight.WorkbenchContrib : Nat := 200

/-- NavigationType from terminalAccessibleBuffer: Next or Previous. -/
inductive NavigationType where
  | next
  | previous
  deriving DecidableEq, Repr

/-- Valuation of the context keys consulted by this file
(CONTEXT_ACCESSIBILITY_MODE_ENABLED, terminalTabFocusContextKey and the
TerminalContextKeys used in preconditions and when-clauses). -/
structure ContextState where
  accessibilityModeEnabled : Bool
  terminalTabFocus : Bool
  accessibleBufferFocus : Bool
  processSupported : Bool
  terminalHasBeenCreated : Bool
  terminalFocus : Bool
  deriving DecidableEq, Repr

/-- Observable host-service and widget calls performed by the handlers. -/
inductive Event where
  | getActiveOrCreateInstance
  | revealActiveTerminal
  | widgetShow (widgetId : Nat)
  | widgetCreateQuickPick (widgetId : Nat)
  | widgetNavigateToCommand (widgetId : Nat) (t : NavigationType)
  | quickPickShow (qpId : Nat)
  | registerProvider (instId : Nat)
  | accessibleViewShow (viewId : String)
  deriving DecidableEq, Repr

/-- An event is a delegation into the accessible-buffer contribution or its
widget (show, quick-pick creation/showing, navigation), as opposed to the
terminal-service calls made before the absence check. -/
def Event.isDelegation : Event → Bool
  | .widgetShow _ => true
  | .widgetCreateQuickPick _ => true
  | .widgetNavigateToCommand _ _ => true
  | .quickPickShow _ => true
  | _ => false

/-- The AccessibleBufferWidget is external to this file; we model it by an
opaque identity. -/
structure AccessibleBufferWidget where
  widgetId : Nat
  deriving DecidableEq, Repr

/-- A quick-pick handle returned by the external widget. -/
structure QuickPick where
  qpId : Nat
  deriving DecidableEq, Repr

/-- Behaviour of the external widget that this file cannot observe beyond the
call boundary: which quick-pick object createQuickPick returns. -/
structure WidgetApi where
  createQuickPickResult : Nat → QuickPick

/-- Calling show on the external widget. -/
def AccessibleBufferWidget.show (w : AccessibleBufferWidget) : List Event :=
  [Event.widgetShow w.widgetId]

/-- Calling createQuickPick on the external widget: the call event and the
returned quick-pick. -/
def AccessibleBufferWidget.createQuickPick (api : WidgetApi)
    (w : AccessibleBufferWidget) : List Event × QuickPick :=
  ([Event.widgetCreateQuickPick w.widgetId], api.createQuickPickResult w.widgetId)

/-- Calling navigateToCommand on the external widget. -/
def AccessibleBufferWidget.navigateToCommand (w : AccessibleBufferWidget)
    (t : NavigationType) : List Event :=
  [Event.widgetNavigateToCommand w.widgetId t]

/-- AccessibleBufferContribution: its only state is the private
`_accessibleBufferWidget`, undefined until the first layout call. -/
structure AccessibleBufferContribution where
  accessibleBufferWidget : Option AccessibleBufferWidget
  deriving DecidableEq, Repr

/-- `layout(xterm)`: constructs the widget if and only if it does not exist
yet. The instantiation-service call that creates the widget is modelled by
the `fresh` argument. -/
def AccessibleBufferContribution.layout (c : AccessibleBufferContribution)
    (fresh : AccessibleBufferWidget) : AccessibleBufferContribution :=
  match c.accessibleBufferWidget with
  | none => { accessibleBufferWidget := some fresh }
  | some _ => c

/-- `show()`: `await this._accessibleBufferWidget?.show()`. -/
def AccessibleBufferContribution.show (c : AccessibleBufferContribution) :
    List Event :=
  match c.accessibleBufferWidget with
  | none => []
  | some w => w.show

/-- `createCommandQuickPick()`: `return this._accessibleBufferWidget?.createQuickPick()`;
returns undefined when the widget does not exist. -/
def AccessibleBufferContribution.createCommandQuickPick
    (c : AccessibleBufferContribution) (api : WidgetApi) :
    List Event × Option QuickPick :=
  match c.accessibleBufferWidget with
  | none => ([], none)
  | some w => ((w.createQuickPick api).1, some (w.createQuickPick api).2)

/-- `navigateToCommand(type)`: `return this._accessibleBufferWidget?.navigateToCommand(type)`. -/
def AccessibleBufferContribution.navigateToCommand
    (c : AccessibleBufferContribution) (t : NavigationType) : List Event :=
  match c.accessibleBufferWidget with
  | none => []
  | some w => w.navigateToCommand t

/-- A terminal instance as seen by this file: its identity, its optional
xterm, and the result of looking up the accessible-buffer contribution on it
(`AccessibleBufferContribution.get` may return null). -/
structure TerminalInstance where
  instId : Nat
  xterm : Option Nat
  accessibleBufferContribution : Option AccessibleBufferContribution

/-- `AccessibleBufferContribution.get(instance)`: contribution lookup on the
instance, null when absent. -/
def AccessibleBufferContribution.get (inst : TerminalInstance) :
    Option AccessibleBufferContribution :=
  inst.accessibleBufferContribution

/-- The terminal service as consulted by the handlers: what
`getActiveOrCreateInstance` resolves to (undefined is possible, the handlers
check `!instance`). -/
structure TerminalService where
  activeOrCreateInstance : Option TerminalInstance

/-- Handler of the FocusAccessibleBuffer action: resolve the instance, reveal
the active terminal, early-return when there is no instance, else
`AccessibleBufferContribution.get(instance)?.show()`. -/
def runFocusAccessibleBuffer (_api : WidgetApi) (svc : TerminalService) :
    List Event :=
  Event.getActiveOrCreateInstance :: Event.revealActiveTerminal ::
    (match svc.activeOrCreateInstance with
     | none => []
     | some inst =>
       match AccessibleBufferContribution.get inst with
       | none => []
       | some contrib => contrib.show)

/-- Handler of the NavigateAccessibleBuffer action: resolve, reveal,
early-return without instance, else create the command quick-pick through the
contribution and `quickPick?.show()`. -/
def runNavigateAccessibleBuffer (api : WidgetApi) (svc : TerminalService) :
    List Event :=
  Event.getActiveOrCreateInstance :: Event.revealActiveTerminal ::
    (match svc.activeOrCreateInstance with
     | none => []
     | some inst =>
       match AccessibleBufferContribution.get inst with
       | none => []
       | some contrib =>
         match contrib.createCommandQuickPick api with
         | (evs, none) => evs
         | (evs, some qp) => evs ++ [Event.quickPickShow qp.qpId])

/-- Handler of the AccessibleBufferGoToNextCommand action: resolve, reveal,
early-return without instance, else delegate navigateToCommand(Next). -/
def runGoToNextCommand (_api : WidgetApi) (svc : TerminalService) :
    List Event :=
  Event.getActiveOrCreateInstance :: Event.revealActiveTerminal ::
    (match svc.activeOrCreateInstance with
     | none => []
     | some inst =>
       match AccessibleBufferContribution.get inst with
       | none => []
       | some contrib => contrib.navigateToCommand NavigationType.next)

/-- Handler of the AccessibleBufferGoToPreviousCommand action: resolve,
reveal, early-return without instance, else delegate
navigateToCommand(Previous). -/
def runGoToPreviousCommand (_api : WidgetApi) (svc : TerminalService) :
    List Event :=
  Event.getActiveOrCreateInstance :: Event.revealActiveTerminal ::
    (match svc.activeOrCreateInstance with
     | none => []
     | some inst =>
       match AccessibleBufferContribution.get inst with
       | none => []
       | some contrib => contrib.navigateToCommand NavigationType.previous)

/-- The accessibility-help implementation added by
TerminalAccessibilityHelpContribution: resolve the instance, reveal the
active terminal, early-return when `instance?.xterm` is undefined, else
register a TerminalAccessibleContentProvider and show the terminal
accessible view. -/
def runAccessibilityHelp (svc : TerminalService) : List Event :=
  Event.getActiveOrCreateInstance :: Event.revealActiveTerminal ::
    (match svc.activeOrCreateInstance with
     | none => []
     | some inst =>
       match inst.xterm with
       | none => []
       | some _ => [Event.registerProvider inst.instId,
                    Event.accessibleViewShow "terminal"])

/-- One entry of a registered action's `keybinding` list. -/
structure Keybinding where
  primary : Nat
  weight : Nat
  whenClause : ContextState → Bool

/-- A registerTerminalAction record: id, precondition, keybindings and the
run handler, modelled as an event-trace function. -/
structure TerminalActionRegistration where
  id : String
  precondition : ContextState → Bool
  keybinding : List Keybinding
  run : WidgetApi → TerminalService → List Event

/-- The when-clause of the FocusAccessibleBuffer keybinding:
`ContextKeyExpr.and(CONTEXT_ACCESSIBILITY_MODE_ENABLED, terminalTabFocusContextKey, TerminalContextKeys.accessibleBufferFocus.negate())`. -/
def focusAccessibleBufferWhen (s : ContextState) : Bool :=
  s.accessibilityModeEnabled && s.terminalTabFocus && !s.accessibleBufferFocus

/-- The registration of FocusAccessibleBuffer. -/
def focusAccessibleBufferAction : TerminalActionRegistration where
  id := "workbench.action.terminal.focusAccessibleBuffer"
  precondition := fun s => s.processSupported || s.terminalHasBeenCreated
  keybinding :=
    [{ primary := Nat.lor KeyMod.Shift KeyCode.Tab,
       weight := KeybindingWeight.WorkbenchContrib,
       whenClause := focusAccessibleBufferWhen }]
  run := runFocusAccessibleBuffer

/-- The registration of NavigateAccessibleBuffer. -/
def navigateAccessibleBufferAction : TerminalActionRegistration where
  id := "workbench.action.terminal.navigateAccessibleBuffer"
  precondition := fun s => s.processSupported || s.terminalHasBeenCreated
  keybinding :=
    [{ primary := Nat.lor (Nat.lor KeyMod.CtrlCmd KeyMod.Shift) KeyCode.KeyO,
       weight := KeybindingWeight.WorkbenchContrib + 2,
       whenClause := fun s => s.accessibleBufferFocus }]
  run := runNavigateAccessibleBuffer

/-- The registration of AccessibleBufferGoToNextCommand. -/
def goToNextCommandAction : TerminalActionRegistration where
  id := "workbench.action.terminal.accessibleBufferGoToNextCommand"
  precondition := fun s =>
    s.processSupported || s.terminalHasBeenCreated || s.accessibleBufferFocus
  keybinding :=
    [{ primary := Nat.lor KeyMod.CtrlCmd KeyCode.DownArrow,
       weight := KeybindingWeight.WorkbenchContrib + 2,
       whenClause := fun s => s.accessibleBufferFocus }]
  run := runGoToNextCommand

/-- The registration of AccessibleBufferGoToPreviousCommand. -/
def goToPreviousCommandAction : TerminalActionRegistration where
  id := "workbench.action.terminal.accessibleBufferGoToPreviousCommand"
  precondition := fun s =>
    (s.processSupported || s.terminalHasBeenCreated) && s.accessibleBufferFocus
  keybinding :=
    [{ primary := Nat.lor KeyMod.CtrlCmd KeyCode.UpArrow,
       weight := KeybindingWeight.WorkbenchContrib + 2,
       whenClause := fun s => s.accessibleBufferFocus }]
  run := runGoToPreviousCommand

/-- The AccessibilityHelpAction.addImplementation record registered by
TerminalAccessibilityHelpContribution. -/
structure AccessibilityHelpImplementation where
  priority : Nat
  name : String
  run : TerminalService → List Event
  whenClause : ContextState → Bool

/-- The implementation added with priority 105, name terminal, when
TerminalContextKeys.focus. -/
def terminalAccessibilityHelpImplementation : AccessibilityHelpImplementation where
  priority := 105
  name := "terminal"
  run := runAccessibilityHelp
  whenClause := fun s => s.terminalFocus

/-- Whether the (single) keybinding of a registered action is enabled in a
context state: all of its when-clauses hold. -/
def keybindingEnabled (a : TerminalActionRegistration) (s : ContextState) : Bool :=
  a.keybinding.all (fun kb => kb.whenClause s)

/-- A concrete widget behaviour for evaluating the model. -/
def api0 : WidgetApi where
  createQuickPickResult := fun n => { qpId := n }

/-- A terminal service whose getActiveOrCreateInstance yields no instance. -/
def svcNone : TerminalService where
  activeOrCreateInstance := none

/-- A concrete widget. -/
def w5 : AccessibleBufferWidget where
  widgetId := 5

/-- A contribution on which layout has never been called. -/
def contribNone : AccessibleBufferContribution where
  accessibleBufferWidget := none

/-- A contribution whose widget has been constructed. -/
def contribW : AccessibleBufferContribution where
  accessibleBufferWidget := some w5

/-- A terminal instance with an xterm and the contribution present. -/
def instFull : TerminalInstance where
  instId := 7
  xterm := some 3
  accessibleBufferContribution := some contribW

/-- A terminal instance without an xterm. -/
def instNoXterm : TerminalInstance where
  instId := 9
  xterm := none
  accessibleBufferContribution := some contribW

/-- A terminal service resolving to the fully populated instance. -/
def svcFull : TerminalService where
  activeOrCreateInstance := some instFull

/-- A terminal service resolving to an instance without an xterm. -/
def svcNoXterm : TerminalService where
  activeOrCreateInstance := some instNoXterm

/-- A context state with accessibility mode on and the terminal focused (both
in the tab-focus and the plain focus sense) while the accessible buffer is
also focused. -/
def c4State : ContextState where
  accessibilityModeEnabled := true
  terminalTabFocus := true
  accessibleBufferFocus := true
  processSupported := false
  terminalHasBeenCreated := false
  terminalFocus := true

/-- A context state where the process is supported but the accessible buffer
is not focused. -/
def c10State : ContextState where
  accessibilityModeEnabled := false
  terminalTabFocus := false
  accessibleBufferFocus := false
  processSupported := true
  terminalHasBeenCreated := false
  terminalFocus := false

theorem layout_of_some (c : AccessibleBufferContribution)
    (w : AccessibleBufferWidget) (fresh : AccessibleBufferWidget)
    (h : c.accessibleBufferWidget = some w) : c.layout fresh = c := by
  simp [AccessibleBufferContribution.layout, h]

theorem foldl_layout_of_some (c : AccessibleBufferContribution)
    (w : AccessibleBufferWidget) (h : c.accessibleBufferWidget = some w)
    (ws : List AccessibleBufferWidget) :
    List.foldl AccessibleBufferContribution.layout c ws = c := by
  induction ws with
  | nil => rfl
  | cons x xs ih => rw [List.foldl_cons, layout_of_some c w x h]; exact ih

/-- C1: for every one of the four registered command handlers
(FocusAccessibleBuffer, NavigateAccessibleBuffer,
AccessibleBufferGoToNextCommand, AccessibleBufferGoToPreviousCommand), when
resolving the active terminal yields no instance, the handler performs no
delegation to the contribution (no show, no quick-pick creation, no
navigation) and returns early: its trace is exactly the resolve and reveal
calls. -/
theorem handlers_noop_without_instance (api : WidgetApi) (svc : TerminalService)
    (h : svc.activeOrCreateInstance = none) :
    runFocusAccessibleBuffer api svc
      = [Event.getActiveOrCreateInstance, Event.revealActiveTerminal] ∧
    runNavigateAccessibleBuffer api svc
      = [Event.getActiveOrCreateInstance, Event.revealActiveTerminal] ∧
    runGoToNextCommand api svc
      = [Event.getActiveOrCreateInstance, Event.revealActiveTerminal] ∧
    runGoToPreviousCommand api svc
      = [Event.getActiveOrCreateInstance, Event.revealActiveTerminal] := by
  refine ⟨?_, ?_, ?_, ?_⟩ <;>
    simp [runFocusAccessibleBuffer, runNavigateAccessibleBuffer,
      runGoToNextCommand, runGoToPreviousCommand, h]

theorem handlers_noop_without_instance_witness :
    runFocusAccessibleBuffer api0 svcNone
      = [Event.getActiveOrCreateInstance, Event.revealActiveTerminal] ∧
    runNavigateAccessibleBuffer api0 svcNone
      = [Event.getActiveOrCreateInstance, Event.revealActiveTerminal] ∧
    runGoToNextCommand api0 svcNone
      = [Event.getActiveOrCreateInstance, Event.revealActiveTerminal] ∧
    runGoToPreviousCommand api0 svcNone
      = [Event.getActiveOrCreateInstance, Event.revealActiveTerminal] :=
  handlers_noop_without_instance api0 svcNone rfl

/-- C2: every one of the four command handlers first resolves the active
terminal via getActiveOrCreateInstance, then calls revealActiveTerminal, and
only after that delegates: the first two events of each trace are resolve and
reveal, and everything after them is delegation into the contribution or its
widget. -/
theorem handlers_reveal_before_delegation (api : WidgetApi)
    (svc : TerminalService) :
    ((runFocusAccessibleBuffer api svc).take 2
        = [Event.getActiveOrCreateInstance, Event.revealActiveTerminal]
      ∧ ((runFocusAccessibleBuffer api svc).drop 2).all Event.isDelegation
        = true) ∧
    ((runNavigateAccessibleBuffer api svc).take 2
        = [Event.getActiveOrCreateInstance, Event.revealActiveTerminal]
      ∧ ((runNavigateAccessibleBuffer api svc).drop 2).all Event.isDelegation
        = true) ∧
    ((runGoToNextCommand api svc).take 2
        = [Event.getActiveOrCreateInstance, Event.revealActiveTerminal]
      ∧ ((runGoToNextCommand api svc).drop 2).all Event.isDelegation
        = true) ∧
    ((runGoToPreviousCommand api svc).take 2
        = [Event.getActiveOrCreateInstance, Event.revealActiveTerminal]
      ∧ ((runGoToPreviousCommand api svc).drop 2).all Event.isDelegation
        = true) := by
  obtain ⟨inst?⟩ := svc
  rcases inst? with _ | ⟨iid, xt, c?⟩
  · simp [runFocusAccessibleBuffer, runNavigateAccessibleBuffer,
      runGoToNextCommand, runGoToPreviousCommand]
  · rcases c? with _ | ⟨w?⟩
    · simp [runFocusAccessibleBuffer, runNavigateAccessibleBuffer,
        runGoToNextCommand, runGoToPreviousCommand,
        AccessibleBufferContribution.get]
    · rcases w? with _ | ⟨wid⟩ <;>
        simp [runFocusAccessibleBuffer, runNavigateAccessibleBuffer,
          runGoToNextCommand, runGoToPreviousCommand,
          AccessibleBufferContribution.get, AccessibleBufferContribution.show,
          AccessibleBufferContribution.createCommandQuickPick,
          AccessibleBufferContribution.navigateToCommand,
          AccessibleBufferWidget.show, AccessibleBufferWidget.createQuickPick,
          AccessibleBufferWidget.navigateToCommand, Event.isDelegation]

/-- C3: the AccessibleBufferWidget is constructed at most once per
contribution: on a contribution whose widget does not exist yet, the first
layout call installs the freshly created widget, and any further sequence of
layout calls leaves the contribution (and hence the widget) unchanged. -/
theorem layout_constructs_widget_at_most_once
    (c : AccessibleBufferContribution) (h : c.accessibleBufferWidget = none)
    (w : AccessibleBufferWidget) (ws : List AccessibleBufferWidget) :
    (c.layout w).accessibleBufferWidget = some w ∧
    List.foldl AccessibleBufferContribution.layout (c.layout w) ws
      = c.layout w := by
  have hw : (c.layout w).accessibleBufferWidget = some w := by
    simp [AccessibleBufferContribution.layout, h]
  exact ⟨hw, foldl_layout_of_some (c.layout w) w hw ws⟩

theorem layout_constructs_widget_at_most_once_witness :
    (contribNone.layout w5).accessibleBufferWidget = some w5 ∧
    List.foldl AccessibleBufferContribution.layout (contribNone.layout w5)
      [AccessibleBufferWidget.mk 6, AccessibleBufferWidget.mk 8]
      = contribNone.layout w5 :=
  layout_constructs_widget_at_most_once contribNone rfl w5
    [AccessibleBufferWidget.mk 6, AccessibleBufferWidget.mk 8]

/-- C4 counterexample: the keybinding condition of FocusAccessibleBuffer does
not hold merely because accessibility mode is on and the terminal is focused:
in the concrete state c4State (accessibility mode on, terminal tab-focus and
plain focus both set) the condition evaluates to false, because the
accessible buffer is focused and the registered when-clause also requires its
negation. -/
theorem focusAccessibleBuffer_enablement_counterexample :
    c4State.accessibilityModeEnabled = true ∧
    c4State.terminalTabFocus = true ∧
    c4State.terminalFocus = true ∧
    keybindingEnabled focusAccessibleBufferAction c4State = false :=
  ⟨rfl, rfl, rfl, rfl⟩

/-- C4 (amended): the FocusAccessibleBuffer command is bound to Shift+Tab
with a keybinding condition that holds exactly when accessibility mode is on,
terminal tab-focus is set, and the accessible buffer is not focused; when run
(with an instance, its contribution and its widget present) it reveals the
terminal and then shows the accessible buffer via the contribution's show
method. -/
theorem focusAccessibleBuffer_spec (s : ContextState) (api : WidgetApi)
    (svc : TerminalService) (inst : TerminalInstance)
    (contrib : AccessibleBufferContribution) (w : AccessibleBufferWidget)
    (hinst : svc.activeOrCreateInstance = some inst)
    (hc : inst.accessibleBufferContribution = some contrib)
    (hw : contrib.accessibleBufferWidget = some w) :
    focusAccessibleBufferAction.id
      = "workbench.action.terminal.focusAccessibleBuffer" ∧
    List.map Keybinding.primary focusAccessibleBufferAction.keybinding
      = [Nat.lor KeyMod.Shift KeyCode.Tab] ∧
    keybindingEnabled focusAccessibleBufferAction s
      = (s.accessibilityModeEnabled && s.terminalTabFocus
          && !s.accessibleBufferFocus) ∧
    focusAccessibleBufferAction.run api svc
      = [Event.getActiveOrCreateInstance, Event.revealActiveTerminal,
         Event.widgetShow w.widgetId] := by
  refine ⟨rfl, rfl, ?_, ?_⟩
  · simp [keybindingEnabled, focusAccessibleBufferAction,
      focusAccessibleBufferWhen]
  · simp [focusAccessibleBufferAction, runFocusAccessibleBuffer, hinst,
      AccessibleBufferContribution.get, hc, AccessibleBufferContribution.show,
      hw, AccessibleBufferWidget.show]

theorem focusAccessibleBuffer_spec_witness :
    focusAccessibleBufferAction.id
      = "workbench.action.terminal.focusAccessibleBuffer" ∧
    List.map Keybinding.primary focusAccessibleBufferAction.keybinding
      = [Nat.lor KeyMod.Shift KeyCode.Tab] ∧
    keybindingEnabled focusAccessibleBufferAction c10State
      = (c10State.accessibilityModeEnabled && c10State.terminalTabFocus
          && !c10State.accessibleBufferFocus) ∧
    focusAccessibleBufferAction.run api0 svcFull
      = [Event.getActiveOrCreateInstance, Event.revealActiveTerminal,
         Event.widgetShow w5.widgetId] :=
  focusAccessibleBuffer_spec c10State api0 svcFull instFull contribW w5
    rfl rfl rfl

/-- C5: the NavigateAccessibleBuffer command is bound to Ctrl/Cmd+Shift+O
with a keybinding condition holding exactly when the accessible buffer is
focused; when run (with an instance, its contribution and its widget present)
it creates the command quick-pick via the contribution and shows the returned
quick-pick. -/
theorem navigateAccessibleBuffer_spec (s : ContextState) (api : WidgetApi)
    (svc : TerminalService) (inst : TerminalInstance)
    (contrib : AccessibleBufferContribution) (w : AccessibleBufferWidget)
    (hinst : svc.activeOrCreateInstance = some inst)
    (hc : inst.accessibleBufferContribution = some contrib)
    (hw : contrib.accessibleBufferWidget = some w) :
    navigateAccessibleBufferAction.id
      = "workbench.action.terminal.navigateAccessibleBuffer" ∧
    List.map Keybinding.primary navigateAccessibleBufferAction.keybinding
      = [Nat.lor (Nat.lor KeyMod.CtrlCmd KeyMod.Shift) KeyCode.KeyO] ∧
    keybindingEnabled navigateAccessibleBufferAction s
      = s.accessibleBufferFocus ∧
    navigateAccessibleBufferAction.run api svc
      = [Event.getActiveOrCreateInstance, Event.revealActiveTerminal,
         Event.widgetCreateQuickPick w.widgetId,
         Event.quickPickShow (api.createQuickPickResult w.widgetId).qpId] := by
  refine ⟨rfl, rfl, ?_, ?_⟩
  · simp [keybindingEnabled, navigateAccessibleBufferAction]
  · simp [navigateAccessibleBufferAction, runNavigateAccessibleBuffer, hinst,
      AccessibleBufferContribution.get, hc,
      AccessibleBufferContribution.createCommandQuickPick, hw,
      AccessibleBufferWidget.createQuickPick]

theorem navigateAccessibleBuffer_spec_witness :
    navigateAccessibleBufferAction.id
      = "workbench.action.terminal.navigateAccessibleBuffer" ∧
    List.map Keybinding.primary navigateAccessibleBufferAction.keybinding
      = [Nat.lor (Nat.lor KeyMod.CtrlCmd KeyMod.Shift) KeyCode.KeyO] ∧
    keybindingEnabled navigateAccessibleBufferAction c10State
      = c10State.accessibleBufferFocus ∧
    navigateAccessibleBufferAction.run api0 svcFull
      = [Event.getActiveOrCreateInstance, Event.revealActiveTerminal,
         Event.widgetCreateQuickPick w5.widgetId,
         Event.quickPickShow (api0.createQuickPickResult w5.widgetId).qpId] :=
  navigateAccessibleBuffer_spec c10State api0 svcFull instFull contribW w5
    rfl rfl rfl

/-- C6: AccessibleBufferGoToNextCommand is bound to Ctrl/Cmd+Down and
AccessibleBufferGoToPreviousCommand to Ctrl/Cmd+Up, each with a keybinding
condition holding exactly when the accessible buffer is focused; when run
(with an instance, its contribution and its widget present) they delegate to
navigateToCommand with NavigationType Next and Previous respectively. -/
theorem goToCommand_actions_spec (s : ContextState) (api : WidgetApi)
    (svc : TerminalService) (inst : TerminalInstance)
    (contrib : AccessibleBufferContribution) (w : AccessibleBufferWidget)
    (hinst : svc.activeOrCreateInstance = some inst)
    (hc : inst.accessibleBufferContribution = some contrib)
    (hw : contrib.accessibleBufferWidget = some w) :
    goToNextCommandAction.id
      = "workbench.action.terminal.accessibleBufferGoToNextCommand" ∧
    goToPreviousCommandAction.id
      = "workbench.action.terminal.accessibleBufferGoToPreviousCommand" ∧
    List.map Keybinding.primary goToNextCommandAction.keybinding
      = [Nat.lor KeyMod.CtrlCmd KeyCode.DownArrow] ∧
    List.map Keybinding.primary goToPreviousCommandAction.keybinding
      = [Nat.lor KeyMod.CtrlCmd KeyCode.UpArrow] ∧
    keybindingEnabled goToNextCommandAction s = s.accessibleBufferFocus ∧
    keybindingEnabled goToPreviousCommandAction s = s.accessibleBufferFocus ∧
    goToNextCommandAction.run api svc
      = [Event.getActiveOrCreateInstance, Event.revealActiveTerminal,
         Event.widgetNavigateToCommand w.widgetId NavigationType.next] ∧
    goToPreviousCommandAction.run api svc
      = [Event.getActiveOrCreateInstance, Event.revealActiveTerminal,
         Event.widgetNavigateToCommand w.widgetId NavigationType.previous] := by
  refine ⟨rfl, rfl, rfl, rfl, ?_, ?_, ?_, ?_⟩
  · simp [keybindingEnabled, goToNextCommandAction]
  · simp [keybindingEnabled, goToPreviousCommandAction]
  · simp [goToNextCommandAction, runGoToNextCommand, hinst,
      AccessibleBufferContribution.get, hc,
      AccessibleBufferContribution.navigateToCommand, hw,
      AccessibleBufferWidget.navigateToCommand]
  · simp [goToPreviousCommandAction, runGoToPreviousCommand, hinst,
      AccessibleBufferContribution.get, hc,
      AccessibleBufferContribution.navigateToCommand, hw,
      AccessibleBufferWidget.navigateToCommand]

theorem goToCommand_actions_spec_witness :
    goToNextCommandAction.id
      = "workbench.action.terminal.accessibleBufferGoToNextCommand" ∧
    goToPreviousCommandAction.id
      = "workbench.action.terminal.accessibleBufferGoToPreviousCommand" ∧
    List.map Keybinding.primary goToNextCommandAction.keybinding
      = [Nat.lor KeyMod.CtrlCmd KeyCode.DownArrow] ∧
    List.map Keybinding.primary goToPreviousCommandAction.keybinding
      = [Nat.lor KeyMod.CtrlCmd KeyCode.UpArrow] ∧
    keybindingEnabled goToNextCommandAction c10State
      = c10State.accessibleBufferFocus ∧
    keybindingEnabled goToPreviousCommandAction c10State
      = c10State.accessibleBufferFocus ∧
    goToNextCommandAction.run api0 svcFull
      = [Event.getActiveOrCreateInstance, Event.revealActiveTerminal,
         Event.widgetNavigateToCommand w5.widgetId NavigationType.next] ∧
    goToPreviousCommandAction.run api0 svcFull
      = [Event.getActiveOrCreateInstance, Event.revealActiveTerminal,
         Event.widgetNavigateToCommand w5.widgetId NavigationType.previous] :=
  goToCommand_actions_spec c10State api0 svcFull instFull contribW w5
    rfl rfl rfl

/-- C7: the accessibility-help implementation registered by
TerminalAccessibilityHelpContribution is named terminal; when invoked it
resolves the active (or newly created) instance and reveals the active
terminal; if the instance has an xterm it registers a
TerminalAccessibleContentProvider and shows the terminal accessible view,
and if there is no instance or the instance has no xterm it returns without
registering or showing anything. -/
theorem accessibilityHelp_spec (svc : TerminalService)
    (inst : TerminalInstance) :
    terminalAccessibilityHelpImplementation.name = "terminal" ∧
    terminalAccessibilityHelpImplementation.priority = 105 ∧
    (svc.activeOrCreateInstance = none →
      terminalAccessibilityHelpImplementation.run svc
        = [Event.getActiveOrCreateInstance, Event.revealActiveTerminal]) ∧
    (svc.activeOrCreateInstance = some inst →
      (inst.xterm = none →
        terminalAccessibilityHelpImplementation.run svc
          = [Event.getActiveOrCreateInstance, Event.revealActiveTerminal]) ∧
      (∀ t, inst.xterm = some t →
        terminalAccessibilityHelpImplementation.run svc
          = [Event.getActiveOrCreateInstance, Event.revealActiveTerminal,
             Event.registerProvider inst.instId,
             Event.accessibleViewShow "terminal"])) := by
  refine ⟨rfl, rfl, ?_, ?_⟩
  · intro h
    simp [terminalAccessibilityHelpImplementation, runAccessibilityHelp, h]
  · intro h
    refine ⟨?_, ?_⟩
    · intro hx
      simp [terminalAccessibilityHelpImplementation, runAccessibilityHelp,
        h, hx]
    · intro t hx
      simp [terminalAccessibilityHelpImplementation, runAccessibilityHelp,
        h, hx]

theorem accessibilityHelp_spec_witness :
    terminalAccessibilityHelpImplementation.run svcNone
      = [Event.getActiveOrCreateInstance, Event.revealActiveTerminal] ∧
    terminalAccessibilityHelpImplementation.run svcNoXterm
      = [Event.getActiveOrCreateInstance, Event.revealActiveTerminal] ∧
    terminalAccessibilityHelpImplementation.run svcFull
      = [Event.getActiveOrCreateInstance, Event.revealActiveTerminal,
         Event.registerProvider instFull.instId,
         Event.accessibleViewShow "terminal"] :=
  ⟨(accessibilityHelp_spec svcNone instFull).2.2.1 rfl,
   ((accessibilityHelp_spec svcNoXterm instNoXterm).2.2.2 rfl).1 rfl,
   ((accessibilityHelp_spec svcFull instFull).2.2.2 rfl).2 3 rfl⟩

/-- C8: the contribution methods show, createCommandQuickPick and
navigateToCommand are pure delegation to the internal widget with an
optional-chaining null check: when the widget exists they forward the call
and return its result, and when the widget has not been constructed show
completes without effect, createCommandQuickPick returns undefined, and
navigateToCommand does nothing. -/
theorem contribution_methods_delegate (api : WidgetApi)
    (c : AccessibleBufferContribution) (t : NavigationType) :
    (c.accessibleBufferWidget = none →
      c.show = [] ∧
      c.createCommandQuickPick api = ([], none) ∧
      c.navigateToCommand t = []) ∧
    (∀ w, c.accessibleBufferWidget = some w →
      c.show = w.show ∧
      c.createCommandQuickPick api
        = ((w.createQuickPick api).1, some (w.createQuickPick api).2) ∧
      c.navigateToCommand t = w.navigateToCommand t) := by
  refine ⟨?_, ?_⟩
  · intro h
    refine ⟨?_, ?_, ?_⟩ <;>
      simp [AccessibleBufferContribution.show,
        AccessibleBufferContribution.createCommandQuickPick,
        AccessibleBufferContribution.navigateToCommand, h]
  · intro w h
    refine ⟨?_, ?_, ?_⟩ <;>
      simp [AccessibleBufferContribution.show,
        AccessibleBufferContribution.createCommandQuickPick,
        AccessibleBufferContribution.navigateToCommand, h]

theorem contribution_methods_delegate_witness :
    (contribNone.show = [] ∧
      contribNone.createCommandQuickPick api0 = ([], none) ∧
      contribNone.navigateToCommand NavigationType.next = []) ∧
    (contribW.show = w5.show ∧
      contribW.createCommandQuickPick api0
        = ((w5.createQuickPick api0).1, some (w5.createQuickPick api0).2) ∧
      contribW.navigateToCommand NavigationType.next
        = w5.navigateToCommand NavigationType.next) :=
  ⟨(contribution_methods_delegate api0 contribNone NavigationType.next).1 rfl,
   (contribution_methods_delegate api0 contribW NavigationType.next).2 w5 rfl⟩

/-- C9: in every one of the five registered handlers (the four commands and
the accessibility-help implementation), revealActiveTerminal is called
unconditionally before the absence check: the first two events of every trace
are resolve and reveal, and in runs where no instance is obtained the trace
is exactly those two calls, so the failure path still reveals the active
terminal and is not free of side effects. -/
theorem reveal_unconditional_on_failure_path (api : WidgetApi)
    (svc : TerminalService) :
    (runFocusAccessibleBuffer api svc).take 2
      = [Event.getActiveOrCreateInstance, Event.revealActiveTerminal] ∧
    (runNavigateAccessibleBuffer api svc).take 2
      = [Event.getActiveOrCreateInstance, Event.revealActiveTerminal] ∧
    (runGoToNextCommand api svc).take 2
      = [Event.getActiveOrCreateInstance, Event.revealActiveTerminal] ∧
    (runGoToPreviousCommand api svc).take 2
      = [Event.getActiveOrCreateInstance, Event.revealActiveTerminal] ∧
    (runAccessibilityHelp svc).take 2
      = [Event.getActiveOrCreateInstance, Event.revealActiveTerminal] ∧
    (svc.activeOrCreateInstance = none →
      runFocusAccessibleBuffer api svc
        = [Event.getActiveOrCreateInstance, Event.revealActiveTerminal] ∧
      runNavigateAccessibleBuffer api svc
        = [Event.getActiveOrCreateInstance, Event.revealActiveTerminal] ∧
      runGoToNextCommand api svc
        = [Event.getActiveOrCreateInstance, Event.revealActiveTerminal] ∧
      runGoToPreviousCommand api svc
        = [Event.getActiveOrCreateInstance, Event.revealActiveTerminal] ∧
      runAccessibilityHelp svc
        = [Event.getActiveOrCreateInstance, Event.revealActiveTerminal]) := by
  refine ⟨rfl, rfl, rfl, rfl, rfl, ?_⟩
  intro h
  refine ⟨?_, ?_, ?_, ?_, ?_⟩ <;>
    simp [runFocusAccessibleBuffer, runNavigateAccessibleBuffer,
      runGoToNextCommand, runGoToPreviousCommand, runAccessibilityHelp, h]

theorem reveal_unconditional_on_failure_path_witness :
    (runFocusAccessibleBuffer api0 svcNone).take 2
      = [Event.getActiveOrCreateInstance, Event.revealActiveTerminal] ∧
    runFocusAccessibleBuffer api0 svcNone
      = [Event.getActiveOrCreateInstance, Event.revealActiveTerminal] ∧
    runAccessibilityHelp svcNone
      = [Event.getActiveOrCreateInstance, Event.revealActiveTerminal] :=
  ⟨(reveal_unconditional_on_failure_path api0 svcNone).1,
   ((reveal_unconditional_on_failure_path api0 svcNone).2.2.2.2.2 rfl).1,
   ((reveal_unconditional_on_failure_path api0 svcNone).2.2.2.2.2 rfl).2.2.2.2⟩

/-- C10: the enablement preconditions of the two navigation commands are
asymmetric: the next-command precondition is the disjunction processSupported
or terminalHasBeenCreated or accessibleBufferFocus, while the
previous-command precondition conjoins accessibleBufferFocus; in the concrete
state c10State (process supported, accessible buffer not focused) the
next-command action is enabled and the previous-command action is not. -/
theorem navigation_preconditions_asymmetric (s : ContextState) :
    goToNextCommandAction.precondition s
      = (s.processSupported || s.terminalHasBeenCreated
          || s.accessibleBufferFocus) ∧
    goToPreviousCommandAction.precondition s
      = ((s.processSupported || s.terminalHasBeenCreated)
          && s.accessibleBufferFocus) ∧
    goToNextCommandAction.precondition c10State = true ∧
    goToPreviousCommandAction.precondition c10State = false :=
  ⟨rfl, rfl, rfl, rfl⟩

end TerminalAccessibility
